import Mathlib

/- Shallow embedding of the UniAgent multi-university RAG workflow from
   src/helper_functions.py and src/backend.py.  Every LLM or retrieval call is
   modelled as an oracle function supplied through an Env record; a service
   call that raises an exception is an Except.error result of the oracle.
   Python string operations (str.upper, str.strip, the in operator,
   str.replace) are embedded at the character-list level so that every
   definition is executable and kernel-reducible. -/

namespace UniAgent

/-- Embedding of Python str.upper (ASCII range, as produced by these prompts):
uppercase every character. -/
def pyUpper : String → String
  | ⟨l⟩ => ⟨l.map Char.toUpper⟩

/-- Embedding of Python str.strip: drop whitespace from both ends. -/
def pyStrip : String → String
  | ⟨l⟩ => ⟨((l.dropWhile Char.isWhitespace).reverse.dropWhile Char.isWhitespace).reverse⟩

/-- Occurrence test for a pattern inside a character list (Python substring
containment, the in operator). -/
def subOcc (pat : List Char) : List Char → Bool
  | [] => pat.isEmpty
  | c :: rest => pat.isPrefixOf (c :: rest) || subOcc pat rest

/-- Embedding of the Python expression needle in hay for strings. -/
def pyContains (hay pat : String) : Bool := subOcc pat.data hay.data

/-- Fuelled worker for pyReplace.  Each step either copies one character or
consumes a whole pattern occurrence, so fuel equal to the list length is always
enough; the fuel only makes the recursion structural. -/
def pyReplaceFuel (pat rep : List Char) : Nat → List Char → List Char
  | 0, l => l
  | _ + 1, [] => []
  | fuel + 1, c :: rest =>
    if pat ≠ [] ∧ pat.isPrefixOf (c :: rest) then
      rep ++ pyReplaceFuel pat rep fuel (List.drop (pat.length - 1) rest)
    else
      c :: pyReplaceFuel pat rep fuel rest

/-- Embedding of Python str.replace for a non-empty pattern: replace all
non-overlapping occurrences, scanning left to right. -/
def pyReplace (pat rep l : List Char) : List Char :=
  pyReplaceFuel pat rep l.length l

/-- One conversation-history entry, the dict appended by the responder nodes in
src/helper_functions.py (keys: university, question, answer). -/
structure HistEntry where
  university : String
  question : String
  answer : String
deriving Repr, DecidableEq

/-- The LangGraph State TypedDict of src/helper_functions.py.  The context
field is declared in the source but never read or written by any node; we keep
it for fidelity.  The conversation_history channel carries the operator.add
reducer, so node updates are appended. -/
structure State where
  user_query : String
  university_name : String
  rewritten_query : String
  context : String
  answer : String
  quality_passed : Bool
  conversation_history : List HistEntry
deriving Repr, DecidableEq

/-- Oracles standing for the external LLM and retrieval services.  Each takes
the cycle index (so that an environment may answer differently on different
cycles) plus the exact data the source code puts into the service call, and
returns the raw response text, or Except.error when the call raises. -/
structure Env where
  /-- supervisor_node model call: (cycle, query shown to the router,
  current university_name) to raw response text. -/
  routerResp : Nat → String → String → Except String String
  /-- per-university RAG chain of create_university_agent:
  (cycle, university key, query) to answer text. -/
  ragAnswer : Nat → String → String → Except String String
  /-- general_agent model call: (cycle, current university_name, query)
  to raw response text. -/
  generalAnswer : Nat → String → String → Except String String
  /-- quality_checker_node model call: (cycle, query, answer) to raw
  response text. -/
  gateResp : Nat → String → String → Except String String
  /-- query_rewriter_node model call: (cycle, original user query,
  uppercased university_name) to raw response text. -/
  rewriteResp : Nat → String → String → Except String String

/-- The Python expression state.get("rewritten_query") or state["user_query"]
used identically by supervisor_node, both responders and the quality checker:
the rewritten query when non-empty, else the original query. -/
def query_for_prompt (s : State) : String :=
  if s.rewritten_query = "" then s.user_query else s.rewritten_query

/-- user_input_node: returns an update that rewrites user_query with itself,
so the state is unchanged. -/
def user_input_node (s : State) : State :=
  { s with user_query := s.user_query }

/-- The label normalization performed at the end of supervisor_node:
uni = resp.content.strip().upper(), then substring checks for NUST, FAST,
COMSATS in that order. -/
def normalize_university (content : String) : String :=
  let uni := pyUpper (pyStrip content)
  if pyContains uni "NUST" then "NUST"
  else if pyContains uni "FAST" then "FAST"
  else if pyContains uni "COMSATS" then "COMSATS"
  else uni

/-- supervisor_node of src/helper_functions.py.  The routing model call has no
try/except around it in the source, so an oracle error propagates. -/
def supervisor_node (env : Env) (i : Nat) (s : State) : Except String State :=
  match env.routerResp i (query_for_prompt s) s.university_name with
  | .error e => .error e
  | .ok content => .ok { s with university_name := normalize_university content }

/-- Which node route_supervisor names, as an enumeration of the four agents
registered in build_workflow. -/
inductive AgentChoice where
  | nust
  | comsats
  | fast
  | general
deriving Repr, DecidableEq

/-- route_supervisor of src/helper_functions.py: exact comparison of
state.get("university_name", "").upper() against the three known keys. -/
def route_supervisor (s : State) : AgentChoice :=
  let university := pyUpper s.university_name
  if university = "NUST" then .nust
  else if university = "COMSATS" then .comsats
  else if university = "FAST" then .fast
  else .general

/-- The agent produced by create_university_agent(university_name, dbs): run
the RAG chain on the current query (rewritten if present), overwrite answer,
and append one history entry tagged university_name.upper() and recording the
original user_query. -/
def university_agent (env : Env) (uniName : String) (i : Nat) (s : State) :
    Except String State :=
  match env.ragAnswer i uniName (query_for_prompt s) with
  | .error e => .error e
  | .ok ans =>
    .ok { s with
          answer := ans,
          conversation_history := s.conversation_history ++
            [⟨pyUpper uniName, s.user_query, ans⟩] }

/-- general_agent of src/helper_functions.py: answer from the model without
retrieval, strip the response, and append one history entry tagged GENERAL. -/
def general_agent (env : Env) (i : Nat) (s : State) : Except String State :=
  match env.generalAnswer i s.university_name (query_for_prompt s) with
  | .error e => .error e
  | .ok raw =>
    let ans := pyStrip raw
    .ok { s with
          answer := ans,
          conversation_history := s.conversation_history ++
            [⟨"GENERAL", s.user_query, ans⟩] }

/-- quality_checker_node of src/helper_functions.py: response =
llm.invoke(prompt).content.strip().upper(); pass iff it contains YES; both
branches reset rewritten_query to the empty string. -/
def quality_checker_node (env : Env) (i : Nat) (s : State) : Except String State :=
  match env.gateResp i (query_for_prompt s) s.answer with
  | .error e => .error e
  | .ok content =>
    let response := pyUpper (pyStrip content)
    if pyContains response "YES" then
      .ok { s with quality_passed := true, rewritten_query := "" }
    else
      .ok { s with quality_passed := false, rewritten_query := "" }

/-- The cleaning done by query_rewriter_node on the raw model output:
strip, remove all asterisk markup, strip again. -/
def clean_rewrite (raw : String) : String :=
  pyStrip ⟨pyReplace ['*'] [] (pyReplace ['*', '*'] [] (pyStrip raw).data)⟩

/-- query_rewriter_node of src/helper_functions.py: on any oracle error, or
when the cleaned output is empty or shorter than 5 characters, fall back to the
original user query; otherwise store the cleaned rewritten query. -/
def query_rewriter_node (env : Env) (i : Nat) (s : State) : State :=
  match env.rewriteResp i s.user_query (pyUpper s.university_name) with
  | .error _ => { s with rewritten_query := s.user_query }
  | .ok raw =>
    let rq := clean_rewrite raw
    if rq = "" ∨ rq.length < 5 then { s with rewritten_query := s.user_query }
    else { s with rewritten_query := rq }

/-- printer_node: returns an empty update, so the state is unchanged. -/
def printer_node (s : State) : State := s

/-- The conditional edge out of the supervisor in build_workflow: dispatch to
exactly one of the four registered agents. -/
def respond_node (env : Env) (i : Nat) (s : State) : Except String State :=
  match route_supervisor s with
  | .nust => university_agent env "NUST" i s
  | .comsats => university_agent env "COMSATS" i s
  | .fast => university_agent env "FAST" i s
  | .general => general_agent env i s

/-- One supervisor - agent - quality_checker pass of the compiled graph
(route_quality_checker then decides GOOD or BAD on the result). -/
def run_cycle (env : Env) (i : Nat) (s : State) : Except String State :=
  match supervisor_node env i s with
  | .error e => .error e
  | .ok s1 =>
    match respond_node env i s1 with
    | .error e => .error e
    | .ok s2 => quality_checker_node env i s2

/-- The cyclic part of the graph of build_workflow: run a cycle; on GOOD go to
printer and END (some final state); on BAD run query_rewriter and loop back to
the supervisor.  The graph itself has no cycle cap, so the loop is bounded
only by the callers fuel (the LangGraph runtime recursion limit); exhausted
fuel without acceptance is Except.ok none. -/
def run_cycles (env : Env) : Nat → Nat → State → Except String (Option State)
  | 0, _, _ => .ok none
  | fuel + 1, i, s =>
    match run_cycle env i s with
    | .error e => .error e
    | .ok s1 =>
      if s1.quality_passed then .ok (some (printer_node s1))
      else run_cycles env fuel (i + 1) (query_rewriter_node env i s1)

/-- The input_state built by process_query: user_query, conversation_history
and university_name from the arguments, every other channel at its default. -/
def init_state (query : String) (history : List HistEntry) (uni : String) : State :=
  ⟨query, uni, "", "", "", false, history⟩

/-- The dict returned by process_query. -/
structure QueryResult where
  answer : String
  university_name : String
  conversation_history : List HistEntry
deriving Repr, DecidableEq

/-- Message of the exception the LangGraph runtime raises when the (uncapped)
loop exceeds its recursion limit; process_query catches it like any other
exception. -/
def recursionErrorMsg : String := "GraphRecursionError"

/-- process_query of src/backend.py: invoke the compiled workflow; on success
return answer, university_name and conversation_history from the final state;
on any exception return the error text as the answer together with the
university_name and conversation_history arguments exactly as passed in. -/
def process_query (env : Env) (fuel : Nat) (query : String)
    (history : List HistEntry) (uni : String) : QueryResult :=
  match run_cycles env fuel 0 (user_input_node (init_state query history uni)) with
  | .ok (some s) => ⟨s.answer, s.university_name, s.conversation_history⟩
  | .ok none => ⟨"An error occurred: " ++ recursionErrorMsg, uni, history⟩
  | .error e => ⟨"An error occurred: " ++ e, uni, history⟩

/-- The history tag written by the agent that route_supervisor selects for the
given routed state: the university key for the three known universities,
GENERAL for the general agent. -/
def cycle_tag (s : State) : String :=
  match route_supervisor s with
  | .nust => "NUST"
  | .comsats => "COMSATS"
  | .fast => "FAST"
  | .general => "GENERAL"

/-- Adversarial environment: the router always answers NUST, the RAG chain
always answers, and the quality gate rejects every cycle. -/
def advEnv : Env where
  routerResp := fun _ _ _ => .ok "NUST"
  ragAnswer := fun _ _ _ => .ok "Some answer about NUST."
  generalAnswer := fun _ _ _ => .ok "General answer."
  gateResp := fun _ _ _ => .ok "NO"
  rewriteResp := fun _ q _ => .ok ("More specific: " ++ q)

/-- Environment whose router call raises. -/
def errEnv : Env where
  routerResp := fun _ _ _ => .error "boom"
  ragAnswer := fun _ _ _ => .ok "answer"
  generalAnswer := fun _ _ _ => .ok "answer"
  gateResp := fun _ _ _ => .ok "YES"
  rewriteResp := fun _ q _ => .ok q

/-- Environment whose generation (responder) calls raise. -/
def genFailEnv : Env where
  routerResp := fun _ _ _ => .ok "NUST"
  ragAnswer := fun _ _ _ => .error "quota exceeded"
  generalAnswer := fun _ _ _ => .error "quota exceeded"
  gateResp := fun _ _ _ => .ok "YES"
  rewriteResp := fun _ q _ => .ok q

/-- Accepting environment: the gate answers YES on every cycle. -/
def okEnv : Env where
  routerResp := fun _ _ _ => .ok "FAST"
  ragAnswer := fun _ _ _ => .ok "An answer about FAST."
  generalAnswer := fun _ _ _ => .ok "General answer."
  gateResp := fun _ _ _ => .ok "YES"
  rewriteResp := fun _ q _ => .ok q

/-- Environment whose rewriter call raises. -/
def rewriteFailEnv : Env where
  routerResp := fun _ _ _ => .ok "GENERAL"
  ragAnswer := fun _ _ _ => .ok "x"
  generalAnswer := fun _ _ _ => .ok "x"
  gateResp := fun _ _ _ => .ok "NO"
  rewriteResp := fun _ _ _ => .error "down"

/-- Environment whose rewriter produces degenerate (too short) output. -/
def degenEnv : Env where
  routerResp := fun _ _ _ => .ok "GENERAL"
  ragAnswer := fun _ _ _ => .ok "x"
  generalAnswer := fun _ _ _ => .ok "x"
  gateResp := fun _ _ _ => .ok "NO"
  rewriteResp := fun _ _ _ => .ok " **ab** "

/-- Sample initial workflow state used by the concrete witnesses. -/
def wInit : State := init_state "q" [] "COMSATS"

/-- State after the supervisor of the first advEnv cycle. -/
def advMid : State := ⟨"q", "NUST", "", "", "", false, []⟩

/-- State after the first full advEnv cycle (answer produced, gate rejected). -/
def advS1 : State :=
  ⟨"q", "NUST", "", "", "Some answer about NUST.", false,
    [⟨"NUST", "q", "Some answer about NUST."⟩]⟩

/-- Final state of the accepting okEnv run. -/
def okS1 : State :=
  ⟨"q", "FAST", "", "", "An answer about FAST.", true,
    [⟨"FAST", "q", "An answer about FAST."⟩]⟩

/-- Unfolding of the core definition of Char.toUpper. -/
theorem char_upper_def (d : Char) :
    d.toUpper = if d.toNat ≥ 97 ∧ d.toNat ≤ 122 then Char.ofNat (d.toNat - 32) else d := rfl

/-- Uppercasing a character twice is the same as uppercasing it once. -/
theorem char_upper_idem (c : Char) : c.toUpper.toUpper = c.toUpper := by
  by_cases h : c.toNat ≥ 97 ∧ c.toNat ≤ 122
  · have h1 := h.1
    have h2 := h.2
    have he : c.toUpper = Char.ofNat (c.toNat - 32) := by rw [char_upper_def c, if_pos h]
    rw [he]
    generalize hn : c.toNat = n at h1 h2
    interval_cases n <;> decide
  · have he : c.toUpper = c := by rw [char_upper_def c, if_neg h]
    rw [he, he]

/-- Function form of char_upper_idem. -/
theorem char_upper_comp : Char.toUpper ∘ Char.toUpper = Char.toUpper :=
  funext char_upper_idem

/-- The embedded str.upper is idempotent. -/
theorem pyUpper_idem (s : String) : pyUpper (pyUpper s) = pyUpper s := by
  cases s with
  | mk l => simp [pyUpper, List.map_map, char_upper_comp]

/-- Unfolding of normalize_university with the let bound variable expanded. -/
theorem normalize_university_def (content : String) :
    normalize_university content =
      (if pyContains (pyUpper (pyStrip content)) "NUST" then "NUST"
       else if pyContains (pyUpper (pyStrip content)) "FAST" then "FAST"
       else if pyContains (pyUpper (pyStrip content)) "COMSATS" then "COMSATS"
       else pyUpper (pyStrip content)) := rfl

/-- Unfolding of route_supervisor with the let bound variable expanded. -/
theorem route_supervisor_def (s : State) :
    route_supervisor s =
      (if pyUpper s.university_name = "NUST" then .nust
       else if pyUpper s.university_name = "COMSATS" then .comsats
       else if pyUpper s.university_name = "FAST" then .fast
       else .general) := rfl

/-- The supervisor only ever stores one of the three known keys or the
uppercased stripped raw response. -/
theorem normalize_cases (r : String) :
    normalize_university r = "NUST" ∨ normalize_university r = "FAST" ∨
      normalize_university r = "COMSATS" ∨
      normalize_university r = pyUpper (pyStrip r) := by
  rw [normalize_university_def]
  split_ifs <;> simp

/-- Every label the supervisor stores is invariant under a further upper. -/
theorem normalize_upper_fixed (r : String) :
    pyUpper (normalize_university r) = normalize_university r := by
  rcases normalize_cases r with h | h | h | h <;> rw [h]
  · rfl
  · rfl
  · rfl
  · exact pyUpper_idem _

/-- A successful supervisor step is exactly a successful router call followed by
label normalization; nothing else in the state changes. -/
theorem supervisor_ok_shape (env : Env) (i : Nat) (s mid : State)
    (h : supervisor_node env i s = Except.ok mid) :
    ∃ r, env.routerResp i (query_for_prompt s) s.university_name = Except.ok r ∧
      mid = { s with university_name := normalize_university r } := by
  unfold supervisor_node at h
  cases hr : env.routerResp i (query_for_prompt s) s.university_name with
  | error e => rw [hr] at h; cases h
  | ok r =>
    rw [hr] at h
    injection h with h
    exact ⟨r, rfl, h.symm⟩

/-- A successful university agent call appends exactly one tagged entry and
stores the answer; nothing else in the state changes. -/
theorem university_agent_ok_shape (env : Env) (u : String) (i : Nat) (s s2 : State)
    (h : university_agent env u i s = Except.ok s2) :
    ∃ ans, env.ragAnswer i u (query_for_prompt s) = Except.ok ans ∧
      s2 = { s with
             answer := ans,
             conversation_history := s.conversation_history ++
               [⟨pyUpper u, s.user_query, ans⟩] } := by
  unfold university_agent at h
  cases hr : env.ragAnswer i u (query_for_prompt s) with
  | error e => rw [hr] at h; cases h
  | ok ans =>
    rw [hr] at h
    injection h with h
    exact ⟨ans, rfl, h.symm⟩

/-- A successful general agent call appends exactly one GENERAL entry and
stores the stripped answer; nothing else in the state changes. -/
theorem general_agent_ok_shape (env : Env) (i : Nat) (s s2 : State)
    (h : general_agent env i s = Except.ok s2) :
    ∃ raw, env.generalAnswer i s.university_name (query_for_prompt s) = Except.ok raw ∧
      s2 = { s with
             answer := pyStrip raw,
             conversation_history := s.conversation_history ++
               [⟨"GENERAL", s.user_query, pyStrip raw⟩] } := by
  unfold general_agent at h
  cases hr : env.generalAnswer i s.university_name (query_for_prompt s) with
  | error e => rw [hr] at h; cases h
  | ok raw =>
    rw [hr] at h
    injection h with h
    exact ⟨raw, rfl, h.symm⟩

/-- Whatever agent the supervisor label selects, a successful responder step
appends exactly one entry tagged cycle_tag and stores its answer. -/
theorem respond_ok_shape (env : Env) (i : Nat) (s s2 : State)
    (h : respond_node env i s = Except.ok s2) :
    ∃ ans, s2 = { s with
                  answer := ans,
                  conversation_history := s.conversation_history ++
                    [⟨cycle_tag s, s.user_query, ans⟩] } := by
  unfold respond_node at h
  unfold cycle_tag
  cases hr : route_supervisor s <;> rw [hr] at h
  · obtain ⟨ans, _, h2⟩ := university_agent_ok_shape env "NUST" i s s2 h
    exact ⟨ans, h2⟩
  · obtain ⟨ans, _, h2⟩ := university_agent_ok_shape env "COMSATS" i s s2 h
    exact ⟨ans, h2⟩
  · obtain ⟨ans, _, h2⟩ := university_agent_ok_shape env "FAST" i s s2 h
    exact ⟨ans, h2⟩
  · obtain ⟨raw, _, h2⟩ := general_agent_ok_shape env i s s2 h
    exact ⟨pyStrip raw, h2⟩

/-- A successful quality gate step is exactly a successful gate call: the
verdict is the YES containment check on the normalized response, the rewritten
query is reset, and nothing else in the state changes. -/
theorem checker_ok_shape (env : Env) (i : Nat) (s s1 : State)
    (h : quality_checker_node env i s = Except.ok s1) :
    ∃ resp, env.gateResp i (query_for_prompt s) s.answer = Except.ok resp ∧
      s1 = { s with
             quality_passed := pyContains (pyUpper (pyStrip resp)) "YES",
             rewritten_query := "" } := by
  unfold quality_checker_node at h
  cases hr : env.gateResp i (query_for_prompt s) s.answer with
  | error e => rw [hr] at h; cases h
  | ok resp =>
    rw [hr] at h
    dsimp only at h
    refine ⟨resp, rfl, ?_⟩
    by_cases hy : pyContains (pyUpper (pyStrip resp)) "YES" = true
    · rw [if_pos hy] at h
      injection h with h
      rw [← h, hy]
    · rw [if_neg hy] at h
      injection h with h
      rw [Bool.not_eq_true] at hy
      rw [← h, hy]

/-- A successful cycle decomposes into supervisor, responder and gate steps. -/
theorem run_cycle_ok_shape (env : Env) (i : Nat) (s s3 : State)
    (h : run_cycle env i s = Except.ok s3) :
    ∃ mid r, supervisor_node env i s = Except.ok mid ∧
      respond_node env i mid = Except.ok r ∧
      quality_checker_node env i r = Except.ok s3 := by
  unfold run_cycle at h
  cases h1 : supervisor_node env i s with
  | error e => rw [h1] at h; cases h
  | ok mid =>
    rw [h1] at h
    dsimp only at h
    cases h2 : respond_node env i mid with
    | error e => rw [h2] at h; cases h
    | ok r =>
      rw [h2] at h
      dsimp only at h
      exact ⟨mid, r, rfl, h2, h⟩

/-- Field bookkeeping of one successful cycle: the original query survives, the
routed label survives to the end of the cycle, the rewritten query ends the
cycle cleared, and the history grows by exactly the one tagged entry recording
the original question and the produced answer. -/
theorem run_cycle_anatomy (env : Env) (i : Nat) (s s3 : State)
    (h : run_cycle env i s = Except.ok s3) :
    ∃ mid, supervisor_node env i s = Except.ok mid ∧
      s3.user_query = s.user_query ∧
      s3.university_name = mid.university_name ∧
      s3.rewritten_query = "" ∧
      s3.conversation_history =
        s.conversation_history ++ [⟨cycle_tag mid, s.user_query, s3.answer⟩] := by
  obtain ⟨mid, r, h1, h2, h3⟩ := run_cycle_ok_shape env i s s3 h
  obtain ⟨r0, hr0, hmid⟩ := supervisor_ok_shape env i s mid h1
  obtain ⟨ans, hr⟩ := respond_ok_shape env i mid r h2
  obtain ⟨resp, hresp, hs3⟩ := checker_ok_shape env i r s3 h3
  subst hs3
  subst hr
  subst hmid
  exact ⟨_, h1, rfl, rfl, rfl, rfl⟩

/-- The query rewriter only writes the rewritten_query channel. -/
theorem rewriter_fields (env : Env) (i : Nat) (s : State) :
    (query_rewriter_node env i s).user_query = s.user_query ∧
    (query_rewriter_node env i s).university_name = s.university_name ∧
    (query_rewriter_node env i s).answer = s.answer ∧
    (query_rewriter_node env i s).conversation_history = s.conversation_history := by
  unfold query_rewriter_node
  cases env.rewriteResp i s.user_query (pyUpper s.university_name) with
  | error e => exact ⟨rfl, rfl, rfl, rfl⟩
  | ok raw =>
    dsimp only
    by_cases hd : clean_rewrite raw = "" ∨ (clean_rewrite raw).length < 5
    · rw [if_pos hd]
      exact ⟨rfl, rfl, rfl, rfl⟩
    · rw [if_neg hd]
      exact ⟨rfl, rfl, rfl, rfl⟩

/-- History entries already present when a run starts are still present, in
order, in the final history of a run that reaches DONE. -/
theorem run_cycles_history_monotone (env : Env) :
    ∀ (fuel i : Nat) (s s9 : State), run_cycles env fuel i s = Except.ok (some s9) →
      s.conversation_history <+: s9.conversation_history := by
  intro fuel
  induction fuel with
  | zero =>
    intro i s s9 h
    simp [run_cycles] at h
  | succ n ih =>
    intro i s s9 h
    unfold run_cycles at h
    cases hc : run_cycle env i s with
    | error e => rw [hc] at h; cases h
    | ok s1 =>
      rw [hc] at h
      dsimp only at h
      obtain ⟨mid, _, _, _, _, hch⟩ := run_cycle_anatomy env i s s1 hc
      by_cases hq : s1.quality_passed = true
      · rw [if_pos hq] at h
        injection h with h
        injection h with h
        rw [← h]
        exact ⟨_, hch.symm⟩
      · rw [if_neg hq] at h
        have hpre1 : s.conversation_history <+: s1.conversation_history := ⟨_, hch.symm⟩
        have hpre2 := ih (i + 1) (query_rewriter_node env i s1) s9 h
        rw [(rewriter_fields env i s1).2.2.2] at hpre2
        exact hpre1.trans hpre2

/-- A complete advEnv cycle: answer produced, history entry appended, gate
rejects. -/
theorem adv_cycle (i : Nat) (s : State) :
    run_cycle advEnv i s =
      Except.ok { s with
        university_name := "NUST",
        rewritten_query := "",
        answer := "Some answer about NUST.",
        quality_passed := false,
        conversation_history := s.conversation_history ++
          [⟨"NUST", s.user_query, "Some answer about NUST."⟩] } := rfl

/-- Under the always rejecting gate, no amount of fuel reaches DONE. -/
theorem adv_never_done : ∀ (fuel i : Nat) (s : State),
    run_cycles advEnv fuel i s = Except.ok none := by
  intro fuel
  induction fuel with
  | zero => intro i s; rfl
  | succ n ih => intro i s; exact ih (i + 1) (query_rewriter_node advEnv i _)

/-- A successful router call makes the supervisor store the normalized label. -/
theorem supervisor_ok_of_router_ok (env : Env) (i : Nat) (s : State) (r : String)
    (h : env.routerResp i (query_for_prompt s) s.university_name = Except.ok r) :
    supervisor_node env i s =
      Except.ok { s with university_name := normalize_university r } := by
  unfold supervisor_node
  rw [h]

/-- If every responder generation call of a cycle raises, the responder step
raises, whatever agent is dispatched. -/
theorem respond_error_of_generation_error (env : Env) (i : Nat) (e : String)
    (hrag : ∀ uniKey qq, env.ragAnswer i uniKey qq = Except.error e)
    (hgen : ∀ ctx qq, env.generalAnswer i ctx qq = Except.error e) :
    ∀ s : State, respond_node env i s = Except.error e := by
  intro s
  unfold respond_node university_agent general_agent
  cases route_supervisor s <;> dsimp only
  · rw [hrag]
  · rw [hrag]
  · rw [hrag]
  · rw [hgen]

/-- A cycle whose responder step raises raises as a whole. -/
theorem run_cycle_error_of_respond_error (env : Env) (i : Nat) (s mid : State) (e : String)
    (hsup : supervisor_node env i s = Except.ok mid)
    (hresp : respond_node env i mid = Except.error e) :
    run_cycle env i s = Except.error e := by
  unfold run_cycle
  rw [hsup]
  dsimp only
  rw [hresp]

/-- An error in the first cycle is the result of the whole loop. -/
theorem run_cycles_error_of_first (env : Env) (k i : Nat) (s : State) (e : String)
    (h : run_cycle env i s = Except.error e) :
    run_cycles env (k + 1) i s = Except.error e := by
  unfold run_cycles
  rw [h]

/-- When the workflow invocation raises, process_query returns the degraded
answer and echoes its context and history arguments. -/
theorem process_query_of_error (env : Env) (fuel : Nat) (q u e : String)
    (hist : List HistEntry)
    (h : run_cycles env fuel 0 (user_input_node (init_state q hist u)) = Except.error e) :
    process_query env fuel q hist u = ⟨"An error occurred: " ++ e, u, hist⟩ := by
  unfold process_query
  rw [h]

/-- C1: the claim asks that the controller reach DONE within a configured
maximum number of cycles (recommended 3) and return the last produced answer
when the cap is hit.  The graph built by build_workflow has no such cap: under
an adversarial gate that rejects every cycle, the loop never reaches DONE for
any fuel bound the runtime grants, and process_query then surfaces the runtime
recursion-limit error instead of the last produced answer. -/
theorem c1_no_cycle_cap :
    (∀ fuel : Nat,
        run_cycles advEnv fuel 0 (user_input_node wInit) = Except.ok none)
    ∧ process_query advEnv 25 "q" [] "COMSATS" =
        ⟨"An error occurred: " ++ recursionErrorMsg, "COMSATS", []⟩ := by
  constructor
  · intro fuel
    exact adv_never_done fuel 0 _
  · have h := adv_never_done 25 0 (user_input_node (init_state "q" [] "COMSATS"))
    unfold process_query
    rw [h]

/-- Witness for C1: already after four fuel units the adversarial run has not
reached DONE. -/
theorem c1_no_cycle_cap_witness :
    run_cycles advEnv 4 0 (user_input_node wInit) = Except.ok none :=
  c1_no_cycle_cap.1 4

/-- C2: if the dispatched responder generation call raises on the first cycle,
process_query catches the exception and returns the error text as the answer
together with the institution context and the history exactly as passed in. -/
theorem c2_generation_failure (env : Env) (fuel : Nat) (q u r e : String)
    (hist : List HistEntry) (hfuel : 0 < fuel)
    (hrouter : env.routerResp 0 q u = Except.ok r)
    (hrag : ∀ uniKey qq, env.ragAnswer 0 uniKey qq = Except.error e)
    (hgen : ∀ ctx qq, env.generalAnswer 0 ctx qq = Except.error e) :
    process_query env fuel q hist u = ⟨"An error occurred: " ++ e, u, hist⟩ := by
  obtain ⟨k, rfl⟩ : ∃ k, fuel = k + 1 := ⟨fuel - 1, by omega⟩
  have hsup := supervisor_ok_of_router_ok env 0 (user_input_node (init_state q hist u)) r hrouter
  have hresp := respond_error_of_generation_error env 0 e hrag hgen
  exact process_query_of_error env (k + 1) q u e hist
    (run_cycles_error_of_first env k 0 _ e
      (run_cycle_error_of_respond_error env 0 _ _ e hsup (hresp _)))

/-- Witness for C2: in the concrete environment whose generation calls raise,
process_query degrades to the error answer and echoes context and history. -/
theorem c2_generation_failure_witness :
    0 < 3
    ∧ genFailEnv.routerResp 0 "q" "COMSATS" = Except.ok "NUST"
    ∧ process_query genFailEnv 3 "q" [] "COMSATS" =
        ⟨"An error occurred: quota exceeded", "COMSATS", []⟩ :=
  ⟨by decide, rfl,
   c2_generation_failure genFailEnv 3 "q" "COMSATS" "NUST" "quota exceeded" []
     (by decide) rfl (fun _ _ => rfl) (fun _ _ => rfl)⟩

/-- C3: each successful cycle appends exactly one history entry, tagged with
the label routed for that cycle (GENERAL when the general responder is
dispatched), recording the pre-rewrite question and the produced answer; the
original question text never changes; and every entry present earlier,
including entries of rejected cycles, survives, in order, to DONE. -/
theorem c3_one_entry_per_cycle :
    (∀ (env : Env) (i : Nat) (s mid s3 : State),
        supervisor_node env i s = Except.ok mid → run_cycle env i s = Except.ok s3 →
          s3.conversation_history =
            s.conversation_history ++ [⟨cycle_tag mid, s.user_query, s3.answer⟩]
          ∧ s3.user_query = s.user_query)
    ∧ (∀ (env : Env) (fuel i : Nat) (s s9 : State),
        run_cycles env fuel i s = Except.ok (some s9) →
          s.conversation_history <+: s9.conversation_history) := by
  constructor
  · intro env i s mid s3 hsup hcyc
    obtain ⟨mid2, hsup2, hq, _, _, hch⟩ := run_cycle_anatomy env i s s3 hcyc
    rw [hsup] at hsup2
    injection hsup2 with hsup2
    rw [← hsup2] at hch
    exact ⟨hch, hq⟩
  · intro env fuel i s s9 h
    exact run_cycles_history_monotone env fuel i s s9 h

/-- Witness for C3 at concrete runs: the adversarial first cycle appends its
NUST-tagged entry, and the accepting okEnv run keeps the initial history as a
prefix of the final one. -/
theorem c3_one_entry_per_cycle_witness :
    supervisor_node advEnv 0 wInit = Except.ok advMid
    ∧ run_cycle advEnv 0 wInit = Except.ok advS1
    ∧ (advS1.conversation_history =
          wInit.conversation_history ++ [⟨cycle_tag advMid, wInit.user_query, advS1.answer⟩]
        ∧ advS1.user_query = wInit.user_query)
    ∧ run_cycles okEnv 1 0 wInit = Except.ok (some okS1)
    ∧ wInit.conversation_history <+: okS1.conversation_history :=
  ⟨rfl, rfl, c3_one_entry_per_cycle.1 advEnv 0 wInit advMid advS1 rfl rfl,
   rfl, c3_one_entry_per_cycle.2 okEnv 1 0 wInit okS1 rfl⟩

/-- C4 counterexample: the claim says a router classification error is
recovered locally with a conservative default label, but supervisor_node has
no error handling, so the routing step returns the raised error rather than
any label. -/
theorem c4_counterexample :
    supervisor_node errEnv 0 wInit = Except.error "boom" := rfl

/-- C4 amended: an error raised by the router classification call is not
recovered inside the routing step; it propagates out of supervisor_node and
out of the whole cycle (to be caught only at the top-level process_query
boundary). -/
theorem c4_router_error_propagates (env : Env) (i : Nat) (s : State) (e : String)
    (h : env.routerResp i (query_for_prompt s) s.university_name = Except.error e) :
    supervisor_node env i s = Except.error e ∧ run_cycle env i s = Except.error e := by
  have hs : supervisor_node env i s = Except.error e := by
    unfold supervisor_node
    rw [h]
  refine ⟨hs, ?_⟩
  unfold run_cycle
  rw [hs]

/-- Witness for the amended C4 at the concrete failing environment. -/
theorem c4_router_error_propagates_witness :
    errEnv.routerResp 0 (query_for_prompt wInit) wInit.university_name = Except.error "boom"
    ∧ (supervisor_node errEnv 0 wInit = Except.error "boom"
        ∧ run_cycle errEnv 0 wInit = Except.error "boom") :=
  ⟨rfl, c4_router_error_propagates errEnv 0 wInit "boom" rfl⟩

/-- C5: for every label the supervisor can store, route_supervisor selects
exactly one of the four agents by exact match: NUST, COMSATS and FAST select
their university agent, and any other label (GENERAL or an unrecognized
free-text name) selects the general agent. -/
theorem c5_exact_dispatch (r : String) (s : State) :
    (route_supervisor { s with university_name := normalize_university r } = AgentChoice.nust
        ↔ normalize_university r = "NUST")
    ∧ (route_supervisor { s with university_name := normalize_university r } = AgentChoice.comsats
        ↔ normalize_university r = "COMSATS")
    ∧ (route_supervisor { s with university_name := normalize_university r } = AgentChoice.fast
        ↔ normalize_university r = "FAST")
    ∧ (route_supervisor { s with university_name := normalize_university r } = AgentChoice.general
        ↔ (normalize_university r ≠ "NUST" ∧ normalize_university r ≠ "COMSATS"
            ∧ normalize_university r ≠ "FAST")) := by
  have hfix := normalize_upper_fixed r
  simp only [route_supervisor_def]
  dsimp only
  rw [hfix]
  generalize normalize_university r = lab at *
  by_cases h1 : lab = "NUST"
  · subst h1
    decide
  by_cases h2 : lab = "COMSATS"
  · subst h2
    decide
  by_cases h3 : lab = "FAST"
  · subst h3
    decide
  simp [h1, h2, h3]

/-- Witness for C5: a lowercase router mention of nust is normalized to NUST
and dispatched to the NUST agent, while a free-text label falls through to the
general agent. -/
theorem c5_exact_dispatch_witness :
    normalize_university " nust " = "NUST"
    ∧ route_supervisor { wInit with university_name := normalize_university " nust " }
        = AgentChoice.nust
    ∧ normalize_university "Bahria" ≠ "NUST"
    ∧ route_supervisor { wInit with university_name := normalize_university "Bahria" }
        = AgentChoice.general :=
  ⟨by decide, (c5_exact_dispatch " nust " wInit).1.mpr (by decide), by decide,
   (c5_exact_dispatch "Bahria" wInit).2.2.2.mpr (by decide)⟩

/-- C6: the quality gate passes exactly when the stripped, uppercased
classifier response contains the affirmative token YES; any response without
it yields reject. -/
theorem c6_gate_yes_iff (env : Env) (i : Nat) (s s1 : State) (resp : String)
    (hresp : env.gateResp i (query_for_prompt s) s.answer = Except.ok resp)
    (hrun : quality_checker_node env i s = Except.ok s1) :
    s1.quality_passed = pyContains (pyUpper (pyStrip resp)) "YES" := by
  obtain ⟨resp2, hr2, hs1⟩ := checker_ok_shape env i s s1 hrun
  rw [hresp] at hr2
  injection hr2 with hr2
  rw [← hr2] at hs1
  rw [hs1]

/-- Witness for C6: the advEnv gate answers NO, and the gate step rejects. -/
theorem c6_gate_yes_iff_witness :
    advEnv.gateResp 0 (query_for_prompt wInit) wInit.answer = Except.ok "NO"
    ∧ quality_checker_node advEnv 0 wInit = Except.ok wInit
    ∧ wInit.quality_passed = pyContains (pyUpper (pyStrip "NO")) "YES" :=
  ⟨rfl, rfl, c6_gate_yes_iff advEnv 0 wInit wInit "NO" rfl rfl⟩

/-- C7: the ROUTE step classifies the rewritten query when one is present and
the original query otherwise, with the current institution context as the
default; the first cycle starts from the context and empty rewritten query of
the invocation arguments; the label ROUTE produces is the one the RESPOND and
CHECK steps of the same cycle receive and still holds at the end of the cycle
(and the rewriter does not touch it), so the next ROUTE consumes it. -/
theorem c7_route_contract (env : Env) (i : Nat) (s : State) :
    (supervisor_node env i s =
      match env.routerResp i
          (if s.rewritten_query = "" then s.user_query else s.rewritten_query)
          s.university_name with
      | Except.error e => Except.error e
      | Except.ok content => Except.ok { s with university_name := normalize_university content })
    ∧ (∀ mid s3, supervisor_node env i s = Except.ok mid → run_cycle env i s = Except.ok s3 →
        s3.university_name = mid.university_name
        ∧ ∃ r2, respond_node env i mid = Except.ok r2
            ∧ quality_checker_node env i r2 = Except.ok s3)
    ∧ (∀ (q u : String) (hist : List HistEntry),
        (user_input_node (init_state q hist u)).university_name = u
        ∧ (user_input_node (init_state q hist u)).rewritten_query = "")
    ∧ (query_rewriter_node env i s).university_name = s.university_name := by
  refine ⟨rfl, ?_, fun q u hist => ⟨rfl, rfl⟩, (rewriter_fields env i s).2.1⟩
  intro mid s3 hsup hcyc
  obtain ⟨mid2, r2, h1, h2, h3⟩ := run_cycle_ok_shape env i s s3 hcyc
  rw [hsup] at h1
  injection h1 with h1
  subst h1
  obtain ⟨mid0, hsup0, _, huni, _, _⟩ := run_cycle_anatomy env i s s3 hcyc
  rw [hsup] at hsup0
  injection hsup0 with hsup0
  subst hsup0
  exact ⟨huni, r2, h2, h3⟩

/-- Witness for C7 on the concrete adversarial first cycle. -/
theorem c7_route_contract_witness :
    supervisor_node advEnv 0 wInit = Except.ok advMid
    ∧ run_cycle advEnv 0 wInit = Except.ok advS1
    ∧ (advS1.university_name = advMid.university_name
        ∧ ∃ r2, respond_node advEnv 0 advMid = Except.ok r2
            ∧ quality_checker_node advEnv 0 r2 = Except.ok advS1) :=
  ⟨rfl, rfl, (c7_route_contract advEnv 0 wInit).2.1 advMid advS1 rfl rfl⟩

/-- C8: the query rewriter falls back to the original user query whenever its
model call raises, and whenever the cleaned output is degenerate (empty or
shorter than 5 characters); being a total function into State, it never
propagates an error. -/
theorem c8_rewriter_fallback (env : Env) (i : Nat) (s : State) :
    (∀ e, env.rewriteResp i s.user_query (pyUpper s.university_name) = Except.error e →
        query_rewriter_node env i s = { s with rewritten_query := s.user_query })
    ∧ (∀ raw, env.rewriteResp i s.user_query (pyUpper s.university_name) = Except.ok raw →
        (clean_rewrite raw = "" ∨ (clean_rewrite raw).length < 5) →
        query_rewriter_node env i s = { s with rewritten_query := s.user_query }) := by
  constructor
  · intro e h
    unfold query_rewriter_node
    rw [h]
  · intro raw h hd
    unfold query_rewriter_node
    rw [h]
    dsimp only
    rw [if_pos hd]

/-- Witness for C8: a raising rewriter and a degenerate rewriter both leave
the original query in place. -/
theorem c8_rewriter_fallback_witness :
    rewriteFailEnv.rewriteResp 0 wInit.user_query (pyUpper wInit.university_name)
        = Except.error "down"
    ∧ query_rewriter_node rewriteFailEnv 0 wInit = { wInit with rewritten_query := "q" }
    ∧ degenEnv.rewriteResp 0 wInit.user_query (pyUpper wInit.university_name)
        = Except.ok " **ab** "
    ∧ (clean_rewrite " **ab** " = "" ∨ (clean_rewrite " **ab** ").length < 5)
    ∧ query_rewriter_node degenEnv 0 wInit = { wInit with rewritten_query := "q" } :=
  ⟨rfl, (c8_rewriter_fallback rewriteFailEnv 0 wInit).1 "down" rfl,
   rfl, by decide,
   (c8_rewriter_fallback degenEnv 0 wInit).2 " **ab** " rfl (by decide)⟩

/-- C9: the gate step resets rewritten_query to empty in both the accept and
the reject branch, so every successful cycle ends with it cleared; and while
it is non-empty, it is exactly the query every node of the cycle consumes. -/
theorem c9_rewritten_query_lifecycle (env : Env) (i : Nat) (s : State) :
    (∀ s1, quality_checker_node env i s = Except.ok s1 → s1.rewritten_query = "")
    ∧ (∀ s3, run_cycle env i s = Except.ok s3 → s3.rewritten_query = "")
    ∧ (s.rewritten_query ≠ "" → query_for_prompt s = s.rewritten_query) := by
  refine ⟨?_, ?_, ?_⟩
  · intro s1 h
    obtain ⟨resp, _, hs1⟩ := checker_ok_shape env i s s1 h
    rw [hs1]
  · intro s3 h
    obtain ⟨mid, _, _, _, hrw, _⟩ := run_cycle_anatomy env i s s3 h
    exact hrw
  · intro h
    unfold query_for_prompt
    rw [if_neg h]

/-- State with a pending rewritten query, for the C9 witness. -/
def sRew : State := ⟨"q", "COMSATS", "rewritten question", "", "", false, []⟩

/-- Witness for C9 at a state carrying a pending rewritten query. -/
theorem c9_rewritten_query_lifecycle_witness :
    quality_checker_node advEnv 0 sRew =
        Except.ok (⟨"q", "COMSATS", "", "", "", false, []⟩ : State)
    ∧ (⟨"q", "COMSATS", "", "", "", false, []⟩ : State).rewritten_query = ""
    ∧ sRew.rewritten_query ≠ ""
    ∧ query_for_prompt sRew = sRew.rewritten_query :=
  ⟨rfl, (c9_rewritten_query_lifecycle advEnv 0 sRew).1 _ rfl, by decide,
   (c9_rewritten_query_lifecycle advEnv 0 sRew).2.2 (by decide)⟩

/-- C10: the supervisor stores exactly NUST when the stripped uppercased
response contains NUST, else FAST when it contains FAST, else COMSATS when it
contains COMSATS, and otherwise the response itself stripped and uppercased,
so multiple mentioned names resolve by this precedence and a free-text name is
preserved in uppercased form. -/
theorem c10_normalize_precedence (r : String) :
    (pyContains (pyUpper (pyStrip r)) "NUST" = true → normalize_university r = "NUST")
    ∧ (pyContains (pyUpper (pyStrip r)) "NUST" = false →
        pyContains (pyUpper (pyStrip r)) "FAST" = true →
        normalize_university r = "FAST")
    ∧ (pyContains (pyUpper (pyStrip r)) "NUST" = false →
        pyContains (pyUpper (pyStrip r)) "FAST" = false →
        pyContains (pyUpper (pyStrip r)) "COMSATS" = true →
        normalize_university r = "COMSATS")
    ∧ (pyContains (pyUpper (pyStrip r)) "NUST" = false →
        pyContains (pyUpper (pyStrip r)) "FAST" = false →
        pyContains (pyUpper (pyStrip r)) "COMSATS" = false →
        normalize_university r = pyUpper (pyStrip r)) := by
  refine ⟨?_, ?_, ?_, ?_⟩
  · intro h1
    rw [normalize_university_def, if_pos h1]
  · intro h1 h2
    rw [normalize_university_def, if_neg (by simp [h1]), if_pos h2]
  · intro h1 h2 h3
    rw [normalize_university_def, if_neg (by simp [h1]), if_neg (by simp [h2]), if_pos h3]
  · intro h1 h2 h3
    rw [normalize_university_def, if_neg (by simp [h1]), if_neg (by simp [h2]),
      if_neg (by simp [h3])]

/-- Witness for C10: a response naming NUST and FAST resolves to NUST by
precedence, and a free-text name is stored stripped and uppercased. -/
theorem c10_normalize_precedence_witness :
    pyContains (pyUpper (pyStrip "NUST and FAST")) "NUST" = true
    ∧ normalize_university "NUST and FAST" = "NUST"
    ∧ pyContains (pyUpper (pyStrip " Bahria University ")) "NUST" = false
    ∧ pyContains (pyUpper (pyStrip " Bahria University ")) "FAST" = false
    ∧ pyContains (pyUpper (pyStrip " Bahria University ")) "COMSATS" = false
    ∧ normalize_university " Bahria University " = pyUpper (pyStrip " Bahria University ") :=
  ⟨by decide, (c10_normalize_precedence "NUST and FAST").1 (by decide),
   by decide, by decide, by decide,
   (c10_normalize_precedence " Bahria University ").2.2.2 (by decide) (by decide) (by decide)⟩

end UniAgent
